import Mathlib

/-!
Verification of the natural-language specification of the `websiteCheck`
repository (`src/image_checker.py`) against a shallow embedding of its code.

The script is a single linear pipeline: fetch a page, extract image sources,
check each image over HTTP, aggregate a broken-image list, send one email if
the list is non-empty, sleep, repeat.  Effects (HTTP fetches, the PIL image
decode, logging, SMTP) are modelled by explicit data:

* `FetchOutcome` models what `requests.get` plus PIL would do for one image
  URL: raise (network error / timeout), or return a status code together with
  a body that either fails `Image.open`, or decodes to a width, a height and
  a flag saying whether `img.verify()` succeeds.
* `PageFetch` models `requests.get(self.url)` followed by BeautifulSoup
  parsing: raise, or a status code together with the document-order list of
  `img` `src` attributes (`img.get("src", "")` yields `""` when the
  attribute is missing, so a missing attribute is the empty string).
* `LogEntry` models one `logging` call; functions return the entries they
  emit, in order.
* `send_email_notification` returns the composed message handed to
  `SMTP.send_message` (delivery itself is external I/O; its success or
  failure is swallowed by the code and changes nothing the caller sees).
* `urljoin` (`requests.compat.urljoin`) is library code and is passed in as
  an abstract function parameter.
* The environment (`os.getenv`) is a function from variable name to
  `Option String`; Python `None` is `none`.
-/

/-- body of a 200 (or any) HTTP response to an image fetch, as seen by PIL:
either `Image.open` raises, or the image decodes with a size and
`img.verify()` either succeeds or raises. -/
inductive ImageBody where
  | undecodable : ImageBody
  | image (width height : Nat) (verifyOk : Bool) : ImageBody
deriving DecidableEq, Repr

/-- outcome of `requests.get(img_url, timeout=10)` for one image URL:
`raiseExc` is a raised exception (connection error, timeout), `ok` is a
response with a status code and a body. -/
inductive FetchOutcome where
  | raiseExc : FetchOutcome
  | ok (status : Nat) (body : ImageBody) : FetchOutcome
deriving DecidableEq, Repr

/-- outcome of fetching and parsing the monitored page: `raiseExc` is a
raised exception from `requests.get(self.url, timeout=10)`; `ok` carries the
status code and the `src` attribute of every `img` element of the response
body, in document order (missing attribute = `""`).  A non-200 status does
not raise: `response.text` is parsed regardless. -/
inductive PageFetch where
  | raiseExc : PageFetch
  | ok (status : Nat) (imgs : List String) : PageFetch
deriving DecidableEq, Repr

/-- one `logging.info` / `logging.warning` / `logging.error` call. -/
inductive LogEntry where
  | info (msg : String) : LogEntry
  | warning (msg : String) : LogEntry
  | error (msg : String) : LogEntry
deriving DecidableEq, Repr

/-- `MIN_WIDTH = 200` (module constant). -/
def MIN_WIDTH : Nat := 200

/-- `MIN_HEIGHT = 200` (module constant). -/
def MIN_HEIGHT : Nat := 200

/-- the `ImageChecker` instance state set in `__init__`. -/
structure ImageChecker where
  url : String
  email_sender : String
  email_password : String
  email_receiver : String
  smtp_server : String
  smtp_port : Nat
deriving DecidableEq, Repr

/-- Python truthiness of an `os.getenv` result: `None` and `""` are falsy. -/
def truthyEnv : Option String → Bool
  | none => false
  | some s => !(s == "")

/-- `ImageChecker.__init__`: read the three email settings from the
environment, fix the URL and the SMTP endpoint, and raise `ValueError` when
`not all([sender, password, receiver])`.  `env` is `os.getenv`. -/
def ImageChecker.init (env : String → Option String) : Except String ImageChecker :=
  let sender := env "EMAIL_SENDER"
  let password := env "EMAIL_APP_PASSWORD"
  let receiver := env "EMAIL_RECEIVER"
  if truthyEnv sender && truthyEnv password && truthyEnv receiver then
    Except.ok
      { url := "https://tutor4science.com/"
        email_sender := sender.getD ""
        email_password := password.getD ""
        email_receiver := receiver.getD ""
        smtp_server := "smtp.gmail.com"
        smtp_port := 587 }
  else
    Except.error "Email configuration is incomplete. Please check your .env file."

/-- Python `str.startswith`, modelled as a character-prefix test on the
underlying character lists (so that concrete instances evaluate in the
kernel). -/
def startsWithStr (s pre : String) : Bool :=
  pre.data.isPrefixOf s.data

/-- `is_base64_image`: the URL starts with `data:image`. -/
def is_base64_image (img_url : String) : Bool :=
  startsWithStr img_url "data:image"

/-- `check_image_url`.  Returns the Python triple `(result, width, height)`
(with Python `True`/`False`/`None` as `some true`/`some false`/`none`)
paired with the log entries the call emits.  Every exception inside the
`try` block (fetch error, `Image.open` failure, `img.verify()` failure) is
caught and yields `(False, None, None)` after an error log line. -/
def check_image_url (fetch : String → FetchOutcome) (img_url : String) :
    (Option Bool × Option Nat × Option Nat) × List LogEntry :=
  if is_base64_image img_url then
    ((some true, none, none), [])
  else
    match fetch img_url with
    | FetchOutcome.raiseExc =>
        ((some false, none, none), [LogEntry.error ("Error checking image " ++ img_url)])
    | FetchOutcome.ok status body =>
        if status == 200 then
          match body with
          | ImageBody.undecodable =>
              ((some false, none, none), [LogEntry.error ("Error checking image " ++ img_url)])
          | ImageBody.image width height verifyOk =>
              if decide (MIN_WIDTH ≤ width) && decide (MIN_HEIGHT ≤ height) then
                if verifyOk then
                  ((some true, some width, some height), [])
                else
                  ((some false, none, none), [LogEntry.error ("Error checking image " ++ img_url)])
              else
                ((none, some width, some height), [])
        else
          ((some false, none, none), [])

/-- the composed email message (`MIMEMultipart` header fields and the
plaintext body attached to it). -/
structure EmailMsg where
  msgFrom : String
  msgTo : String
  subject : String
  body : String
deriving DecidableEq, Repr

/-- the fixed first part of the email body. -/
def EMAIL_BODY_HEADER : String :=
  "The following images are not rendering properly (only main content images are checked):\n\n"

/-- one body line per broken-image record: `- {img} (size: {width}x{height})\n`. -/
def email_line (rec : String × Nat × Nat) : String :=
  "- " ++ rec.1 ++ " (size: " ++ toString rec.2.1 ++ "x" ++ toString rec.2.2 ++ ")\n"

/-- `send_email_notification`: return immediately on an empty list,
otherwise compose the message (subject, From, To, and a body built by
appending one line per record to the fixed header) and hand it to the SMTP
session.  The returned value is the composed message; SMTP delivery is
external and any of its failures is caught and logged without changing the
result. -/
def send_email_notification (c : ImageChecker) (broken_images : List (String × Nat × Nat)) :
    Option EmailMsg :=
  if broken_images.isEmpty then
    none
  else
    some
      { msgFrom := c.email_sender
        msgTo := c.email_receiver
        subject := "Broken Images Found on " ++ c.url
        body := broken_images.foldl (fun b rec => b ++ email_line rec) EMAIL_BODY_HEADER }

/-- URL resolution step of `check_website_images`: a source that does not
start with `http://`, `https://` or `data:image` is resolved with
`requests.compat.urljoin(self.url, img_url)`; otherwise it is unchanged. -/
def resolve_img_url (urljoin : String → String → String) (base src : String) : String :=
  if startsWithStr src "http://" || startsWithStr src "https://" || startsWithStr src "data:image" then
    src
  else
    urljoin base src

/-- the append condition of `check_website_images`:
`result is False and width and height and width >= MIN_WIDTH and height >= MIN_HEIGHT`
(Python truthiness: a `None` or zero dimension is falsy). -/
def append_guard : Option Bool → Option Nat → Option Nat → Bool
  | some false, some w, some h =>
      !(w == 0) && !(h == 0) && decide (MIN_WIDTH ≤ w) && decide (MIN_HEIGHT ≤ h)
  | _, _, _ => false

/-- one iteration of the `for img in images` loop of `check_website_images`,
threading the broken-image list and the log: skip an empty source, resolve
the URL, run `check_image_url`, and append a record plus a warning line when
the append condition holds. -/
def imgStep (urljoin : String → String → String) (fetch : String → FetchOutcome)
    (base : String) (acc : List (String × Nat × Nat) × List LogEntry) (src : String) :
    List (String × Nat × Nat) × List LogEntry :=
  if src == "" then
    acc
  else
    let img_url := resolve_img_url urljoin base src
    let checked := check_image_url fetch img_url
    let result := checked.1.1
    let width := checked.1.2.1
    let height := checked.1.2.2
    let log := acc.2 ++ checked.2
    if append_guard result width height then
      (acc.1 ++ [(img_url, width.getD 0, height.getD 0)],
       log ++ [LogEntry.warning ("Broken main image found: " ++ img_url ++ " (size: " ++
         toString (width.getD 0) ++ "x" ++ toString (height.getD 0) ++ ")")])
    else
      (acc.1, log)

/-- result of one call to `check_website_images`: the returned
`broken_images` list, the log entries emitted, and the email message
composed and handed to SMTP (if any). -/
structure CycleResult where
  broken_images : List (String × Nat × Nat)
  log : List LogEntry
  email : Option EmailMsg
deriving DecidableEq, Repr

/-- `check_website_images`: fetch the page (any raised exception is caught:
an error line is logged and `[]` is returned); otherwise iterate over the
extracted image sources, then either send the email (non-empty list) or log
the all-images-rendering info line (empty list), and return the list. -/
def check_website_images (urljoin : String → String → String)
    (fetch : String → FetchOutcome) (page : PageFetch) (c : ImageChecker) : CycleResult :=
  match page with
  | PageFetch.raiseExc =>
      { broken_images := []
        log := [LogEntry.error "Error checking website"]
        email := none }
  | PageFetch.ok _ imgs =>
      let folded := imgs.foldl (imgStep urljoin fetch c.url) ([], [])
      if folded.1.isEmpty then
        { broken_images := folded.1
          log := folded.2 ++ [LogEntry.info "All main content images are rendering properly"]
          email := none }
      else
        { broken_images := folded.1
          log := folded.2
          email := send_email_notification c folded.1 }

/-- the external inputs of one loop cycle: the page-fetch outcome and the
per-image fetch outcomes. -/
structure CycleInput where
  page : PageFetch
  fetch : String → FetchOutcome

/-- the `while True` body of `main`, run over a list of cycle inputs: every
cycle calls `check_website_images` and the loop continues regardless of the
cycle outcome (each cycle body catches its own exceptions). -/
def run_cycles (urljoin : String → String → String) (c : ImageChecker)
    (cycles : List CycleInput) : List CycleResult :=
  cycles.map (fun cyc => check_website_images urljoin cyc.fetch cyc.page c)

/-- `main`: construct the `ImageChecker` (a configuration error aborts
before any cycle runs), then run the monitor loop.  (Named `main_program`
because Lean reserves `main` for an executable entry point.) -/
def main_program (urljoin : String → String → String) (env : String → Option String)
    (cycles : List CycleInput) : Except String (List CycleResult) :=
  match ImageChecker.init env with
  | Except.error e => Except.error e
  | Except.ok c => Except.ok (run_cycles urljoin c cycles)

/-- the fetch outcomes under which the `try` block of `check_image_url`
raises internally: a fetch exception, a 200 response whose body
`Image.open` cannot decode, or a 200 response decoding to threshold-sized
dimensions whose `img.verify()` raises.  (A non-200 response raises
nothing: it reaches the plain `return False, None, None`.) -/
def raisesInternally (fetch : String → FetchOutcome) (url : String) : Prop :=
  is_base64_image url = false ∧
  (fetch url = FetchOutcome.raiseExc ∨
   fetch url = FetchOutcome.ok 200 ImageBody.undecodable ∨
   ∃ w h, fetch url = FetchOutcome.ok 200 (ImageBody.image w h false) ∧
     MIN_WIDTH ≤ w ∧ MIN_HEIGHT ≤ h)

/-- a concrete `ImageChecker` instance (the state `__init__` builds from a
fully populated environment), used to instantiate theorems on concrete
inputs. -/
def testChecker : ImageChecker :=
  { url := "https://tutor4science.com/"
    email_sender := "sender@example.com"
    email_password := "app-password"
    email_receiver := "receiver@example.com"
    smtp_server := "smtp.gmail.com"
    smtp_port := 587 }

/-! ## Helper lemmas -/

/-- no output of `check_image_url` satisfies the append condition of
`check_website_images`: every path that returns `False` as first component
leaves both dimensions `None`, and the other outcomes are not `False`. -/
theorem append_guard_check (fetch : String → FetchOutcome) (u : String) :
    append_guard (check_image_url fetch u).1.1 (check_image_url fetch u).1.2.1
      (check_image_url fetch u).1.2.2 = false := by
  unfold check_image_url
  repeat' split
  all_goals rfl

/-- one loop iteration never extends the broken-image list. -/
theorem imgStep_fst (j : String → String → String) (f : String → FetchOutcome)
    (b : String) (acc : List (String × Nat × Nat) × List LogEntry) (s : String) :
    (imgStep j f b acc s).1 = acc.1 := by
  unfold imgStep
  split
  · rfl
  · simp [append_guard_check]

/-- the whole image loop leaves the broken-image list at its initial value. -/
theorem foldl_imgStep_fst (j : String → String → String) (f : String → FetchOutcome)
    (b : String) (imgs : List String) (bs : List (String × Nat × Nat)) (lg : List LogEntry) :
    (imgs.foldl (imgStep j f b) (bs, lg)).1 = bs := by
  induction imgs generalizing bs lg with
  | nil => rfl
  | cons s rest ih =>
      have h := imgStep_fst j f b (bs, lg) s
      rcases hs : imgStep j f b (bs, lg) s with ⟨x, y⟩
      have hx : x = bs := h.symm.trans (congrArg Prod.fst hs) |>.symm
      rw [List.foldl_cons, hs, hx]
      exact ih bs y

/-- `check_website_images` always returns the empty broken-image list. -/
theorem check_website_images_broken_nil (j : String → String → String)
    (f : String → FetchOutcome) (page : PageFetch) (c : ImageChecker) :
    (check_website_images j f page c).broken_images = [] := by
  cases page with
  | raiseExc => rfl
  | ok s imgs =>
      have h := foldl_imgStep_fst j f c.url imgs [] []
      simp [check_website_images, h]

/-- `check_website_images` never composes an email. -/
theorem check_website_images_email_none (j : String → String → String)
    (f : String → FetchOutcome) (page : PageFetch) (c : ImageChecker) :
    (check_website_images j f page c).email = none := by
  cases page with
  | raiseExc => rfl
  | ok s imgs =>
      have h := foldl_imgStep_fst j f c.url imgs [] []
      simp [check_website_images, h]

/-- when the page fetch does not raise, the all-images-rendering info line is
logged. -/
theorem check_website_images_info_logged (j : String → String → String)
    (f : String → FetchOutcome) (s : Nat) (imgs : List String) (c : ImageChecker) :
    LogEntry.info "All main content images are rendering properly" ∈
      (check_website_images j f (PageFetch.ok s imgs) c).log := by
  have h := foldl_imgStep_fst j f c.url imgs [] []
  simp [check_website_images, h]

/-- folding string append from an arbitrary accumulator factors through the
empty accumulator. -/
theorem foldl_append_str (L : List String) (a : String) :
    L.foldl (fun r s => r ++ s) a = a ++ L.foldl (fun r s => r ++ s) "" := by
  induction L generalizing a with
  | nil => simp
  | cons x xs ih =>
      rw [List.foldl_cons, List.foldl_cons, ih (a ++ x), ih ("" ++ x)]
      simp [String.append_assoc]

/-- the email body fold is the header followed by the join of one line per
record. -/
theorem foldl_email_line (l : List (String × Nat × Nat)) (init : String) :
    l.foldl (fun b rec => b ++ email_line rec) init = init ++ String.join (l.map email_line) := by
  induction l generalizing init with
  | nil => simp [String.join]
  | cons r rest ih =>
      rw [List.foldl_cons, ih (init ++ email_line r)]
      simp only [String.join, List.map_cons, List.foldl_cons]
      rw [foldl_append_str (List.map email_line rest) ("" ++ email_line r)]
      simp [String.append_assoc]

/-- every `False` outcome of `check_image_url` carries `None` for both
dimensions. -/
theorem check_image_url_false_dims (fetch : String → FetchOutcome) (u : String)
    (h : (check_image_url fetch u).1.1 = some false) :
    (check_image_url fetch u).1.2.1 = none ∧ (check_image_url fetch u).1.2.2 = none := by
  unfold check_image_url at h ⊢
  repeat' split at h
  all_goals simp_all

/-- `truthyEnv` is false exactly on an absent or empty environment value. -/
theorem truthyEnv_eq_false (x : Option String) :
    truthyEnv x = false ↔ (x = none ∨ x = some "") := by
  cases x with
  | none => simp [truthyEnv]
  | some s => simp [truthyEnv]

/-- an empty source string is skipped by the loop body. -/
theorem imgStep_empty (j : String → String → String) (f : String → FetchOutcome)
    (b : String) (acc : List (String × Nat × Nat) × List LogEntry) :
    imgStep j f b acc "" = acc := by
  simp [imgStep]

/-! ## Claims -/

/-- C2: for every cycle and every input page, the `broken_images` list built
by `check_website_images` is exactly empty when it is returned and no email
is composed; moreover every path of `check_image_url` that returns `False`
as its first component returns `None` for both width and height, so the
append guard never fires. -/
theorem C2_broken_images_always_empty (j : String → String → String)
    (f : String → FetchOutcome) (page : PageFetch) (c : ImageChecker) :
    ((check_website_images j f page c).broken_images = [] ∧
     (check_website_images j f page c).email = none) ∧
    (∀ (g : String → FetchOutcome) (u : String),
      (check_image_url g u).1.1 = some false →
      (check_image_url g u).1.2.1 = none ∧ (check_image_url g u).1.2.2 = none) := by
  refine ⟨⟨check_website_images_broken_nil j f page c,
          check_website_images_email_none j f page c⟩, ?_⟩
  intro g u h
  exact check_image_url_false_dims g u h

/-- C2 witness: concrete instance of the invariant. -/
theorem C2_broken_images_always_empty_witness :
    (check_website_images (fun b s => b ++ s) (fun _ => FetchOutcome.raiseExc)
        (PageFetch.ok 200 ["logo.png"]) testChecker).broken_images = [] ∧
    (check_image_url (fun _ => FetchOutcome.raiseExc)
        "https://tutor4science.com/logo.png").1.2.1 = none := by
  have h := C2_broken_images_always_empty (fun b s => b ++ s)
    (fun _ => FetchOutcome.raiseExc) (PageFetch.ok 200 ["logo.png"]) testChecker
  exact ⟨h.1.1, (h.2 (fun _ => FetchOutcome.raiseExc) "https://tutor4science.com/logo.png" (by decide)).1⟩

/-- C1: an image whose per-image check yields the failure outcome (first
component `False`) reports no dimensions, and never appears in the
broken-image list built by `check_website_images`; the cycle composes no
email at all. -/
theorem C1_failed_check_never_reported (j : String → String → String)
    (f : String → FetchOutcome) (page : PageFetch) (c : ImageChecker) (u : String)
    (h : (check_image_url f u).1.1 = some false) :
    ((check_image_url f u).1.2.1 = none ∧ (check_image_url f u).1.2.2 = none) ∧
    (∀ w hgt : Nat, (u, w, hgt) ∉ (check_website_images j f page c).broken_images) ∧
    (check_website_images j f page c).email = none := by
  refine ⟨check_image_url_false_dims f u h, fun w hgt hmem => ?_,
    check_website_images_email_none j f page c⟩
  rw [check_website_images_broken_nil j f page c] at hmem
  exact List.not_mem_nil _ hmem

/-- C1 witness: a banner that returns HTTP 500 has the failure outcome and
does not appear in the broken-image list of a cycle that references it. -/
theorem C1_failed_check_never_reported_witness :
    ((check_image_url (fun _ => FetchOutcome.ok 500 ImageBody.undecodable)
        "https://cdn.example.com/banner.jpg").1.2.1 = none) ∧
    ("https://cdn.example.com/banner.jpg", 300, 300) ∉
      (check_website_images (fun b s => b ++ s)
        (fun _ => FetchOutcome.ok 500 ImageBody.undecodable)
        (PageFetch.ok 200 ["https://cdn.example.com/banner.jpg"]) testChecker).broken_images := by
  have h := C1_failed_check_never_reported (fun b s => b ++ s)
    (fun _ => FetchOutcome.ok 500 ImageBody.undecodable)
    (PageFetch.ok 200 ["https://cdn.example.com/banner.jpg"]) testChecker
    "https://cdn.example.com/banner.jpg" (by decide)
  exact ⟨h.1.1, h.2.1 300 300⟩

/-- C3 counterexample: on a non-200 page response (status 500, an error page
with one image reference), `requests.get` does not raise, so nothing is
caught and no error line is logged: the cycle runs the image loop over the
error page and ends with the all-images-rendering info line only. -/
theorem C3_counterexample_non200_not_logged :
    check_website_images (fun b s => b ++ s)
        (fun _ => FetchOutcome.ok 500 ImageBody.undecodable)
        (PageFetch.ok 500 ["banner.jpg"]) testChecker =
      { broken_images := []
        log := [LogEntry.info "All main content images are rendering properly"]
        email := none } ∧
    (LogEntry.error "Error checking website") ∉
      (check_website_images (fun b s => b ++ s)
        (fun _ => FetchOutcome.ok 500 ImageBody.undecodable)
        (PageFetch.ok 500 ["banner.jpg"]) testChecker).log := by
  constructor
  · decide
  · decide

/-- C3 (amended): a raised network error or timeout on the page fetch is
caught: the error line is logged, the cycle returns the empty list, no email
is composed; a non-200 status does not raise and the body is parsed, the
cycle still returning the empty list with no email; and the loop runs every
following cycle regardless. -/
theorem C3_page_fetch_error_recovered (j : String → String → String)
    (f : String → FetchOutcome) (c : ImageChecker) :
    (check_website_images j f PageFetch.raiseExc c =
      { broken_images := []
        log := [LogEntry.error "Error checking website"]
        email := none }) ∧
    (∀ (s : Nat) (imgs : List String),
      (check_website_images j f (PageFetch.ok s imgs) c).broken_images = [] ∧
      (check_website_images j f (PageFetch.ok s imgs) c).email = none) ∧
    (∀ (cyc : CycleInput) (rest : List CycleInput),
      run_cycles j c (cyc :: rest) =
        check_website_images j cyc.fetch cyc.page c :: run_cycles j c rest) := by
  refine ⟨rfl, fun s imgs => ⟨check_website_images_broken_nil j f (PageFetch.ok s imgs) c,
    check_website_images_email_none j f (PageFetch.ok s imgs) c⟩, fun cyc rest => rfl⟩

/-- C4: construction of `ImageChecker` fails with the configuration error
when any of the three environment values is absent or empty — and then
`main` aborts before any cycle runs — while construction succeeds when all
three are present and non-empty. -/
theorem C4_config_validation (env : String → Option String) :
    (((env "EMAIL_SENDER" = none ∨ env "EMAIL_SENDER" = some "") ∨
      (env "EMAIL_APP_PASSWORD" = none ∨ env "EMAIL_APP_PASSWORD" = some "") ∨
      (env "EMAIL_RECEIVER" = none ∨ env "EMAIL_RECEIVER" = some "")) →
      ImageChecker.init env =
        Except.error "Email configuration is incomplete. Please check your .env file." ∧
      ∀ (j : String → String → String) (cycles : List CycleInput),
        main_program j env cycles =
          Except.error "Email configuration is incomplete. Please check your .env file.") ∧
    ((∃ s, env "EMAIL_SENDER" = some s ∧ s ≠ "") →
     (∃ p, env "EMAIL_APP_PASSWORD" = some p ∧ p ≠ "") →
     (∃ r, env "EMAIL_RECEIVER" = some r ∧ r ≠ "") →
     ∃ c, ImageChecker.init env = Except.ok c) := by
  constructor
  · intro hmiss
    have hcond : (truthyEnv (env "EMAIL_SENDER") && truthyEnv (env "EMAIL_APP_PASSWORD") &&
        truthyEnv (env "EMAIL_RECEIVER")) = false := by
      rcases hmiss with h | h | h <;> simp [(truthyEnv_eq_false _).2 h]
    have hinit : ImageChecker.init env =
        Except.error "Email configuration is incomplete. Please check your .env file." := by
      simp [ImageChecker.init, hcond]
    exact ⟨hinit, fun j cycles => by simp [main_program, hinit]⟩
  · rintro ⟨s, hs, hsne⟩ ⟨p, hp, hpne⟩ ⟨r, hr, hrne⟩
    refine ⟨{ url := "https://tutor4science.com/"
              email_sender := s
              email_password := p
              email_receiver := r
              smtp_server := "smtp.gmail.com"
              smtp_port := 587 }, ?_⟩
    simp [ImageChecker.init, hs, hp, hr, truthyEnv, hsne, hpne, hrne]

/-- C4 witness: an empty environment aborts `main` with the configuration
error; a fully populated environment constructs the checker. -/
theorem C4_config_validation_witness :
    main_program (fun b s => b ++ s) (fun _ => none) [] =
      Except.error "Email configuration is incomplete. Please check your .env file." ∧
    ∃ c, ImageChecker.init (fun _ => some "x") = Except.ok c :=
  ⟨((C4_config_validation (fun _ => none)).1 (Or.inl (Or.inl rfl))).2 (fun b s => b ++ s) [],
   (C4_config_validation (fun _ => some "x")).2
     ⟨"x", rfl, by decide⟩ ⟨"x", rfl, by decide⟩ ⟨"x", rfl, by decide⟩⟩

/-- C5: an inline-encoded image URL (prefix `data:image`) is never fetched:
`check_image_url` returns `(True, None, None)` with no log line, the append
guard cannot fire on that outcome, and the URL appears in no broken-image
list. -/
theorem C5_base64_never_broken (fetch : String → FetchOutcome) (url : String)
    (h : startsWithStr url "data:image" = true) :
    check_image_url fetch url = ((some true, none, none), []) ∧
    append_guard (some true) none none = false ∧
    (∀ (j : String → String → String) (page : PageFetch) (c : ImageChecker) (w hgt : Nat),
      (url, w, hgt) ∉ (check_website_images j fetch page c).broken_images) := by
  refine ⟨by simp [check_image_url, is_base64_image, h], rfl, fun j page c w hgt hmem => ?_⟩
  rw [check_website_images_broken_nil j fetch page c] at hmem
  exact List.not_mem_nil _ hmem

/-- C5 witness: a concrete data URI is classified healthy without a fetch
and is absent from the broken-image list of a page that contains it. -/
theorem C5_base64_never_broken_witness :
    check_image_url (fun _ => FetchOutcome.raiseExc) "data:image/gif" =
      ((some true, none, none), []) ∧
    ("data:image/gif", 300, 300) ∉
      (check_website_images (fun b s => b ++ s) (fun _ => FetchOutcome.raiseExc)
        (PageFetch.ok 200 ["data:image/gif"]) testChecker).broken_images := by
  have h := C5_base64_never_broken (fun _ => FetchOutcome.raiseExc) "data:image/gif" (by decide)
  exact ⟨h.1, h.2.2 (fun b s => b ++ s) (PageFetch.ok 200 ["data:image/gif"]) testChecker 300 300⟩

/-- C6: a fetched 200 response that decodes with a dimension below the
threshold yields the ignorable outcome `(None, width, height)` (whatever
`img.verify()` would do), the append guard cannot fire on it, and the image
appears in no broken-image list. -/
theorem C6_small_image_ignored (fetch : String → FetchOutcome) (url : String)
    (w hgt : Nat) (v : Bool)
    (hb : is_base64_image url = false)
    (hf : fetch url = FetchOutcome.ok 200 (ImageBody.image w hgt v))
    (hsmall : w < MIN_WIDTH ∨ hgt < MIN_HEIGHT) :
    check_image_url fetch url = ((none, some w, some hgt), []) ∧
    append_guard none (some w) (some hgt) = false ∧
    (∀ (j : String → String → String) (g : String → FetchOutcome) (page : PageFetch)
       (c : ImageChecker), (url, w, hgt) ∉ (check_website_images j g page c).broken_images) := by
  have hcond : (decide (MIN_WIDTH ≤ w) && decide (MIN_HEIGHT ≤ hgt)) = false := by
    rcases hsmall with h | h <;> simp [Nat.not_le.2 h]
  refine ⟨by simp [check_image_url, hb, hf, hcond], rfl,
    fun j g page c hmem => ?_⟩
  rw [check_website_images_broken_nil j g page c] at hmem
  exact List.not_mem_nil _ hmem

/-- C6 witness: a 50 by 50 logo fetched successfully is ignored and absent
from the broken-image list of a page that references it. -/
theorem C6_small_image_ignored_witness :
    check_image_url (fun _ => FetchOutcome.ok 200 (ImageBody.image 50 50 true))
        "https://tutor4science.com/logo.png" = ((none, some 50, some 50), []) ∧
    ("https://tutor4science.com/logo.png", 50, 50) ∉
      (check_website_images (fun b s => b ++ s)
        (fun _ => FetchOutcome.ok 200 (ImageBody.image 50 50 true))
        (PageFetch.ok 200 ["/logo.png"]) testChecker).broken_images := by
  have h := C6_small_image_ignored (fun _ => FetchOutcome.ok 200 (ImageBody.image 50 50 true))
    "https://tutor4science.com/logo.png" 50 50 true (by decide) rfl (Or.inl (by decide))
  exact ⟨h.1, h.2.2 (fun b s => b ++ s)
    (fun _ => FetchOutcome.ok 200 (ImageBody.image 50 50 true))
    (PageFetch.ok 200 ["/logo.png"]) testChecker⟩

/-- C7: a non-empty source that starts with none of `http://`, `https://`,
`data:image` is resolved with `urljoin` against the page base URL; a source
with one of those prefixes is passed on unchanged; and an empty source
contributes nothing to the cycle (dropping it from the image list leaves the
result unchanged). -/
theorem C7_url_resolution (j : String → String → String) (b src : String) :
    (src ≠ "" → startsWithStr src "http://" = false →
      startsWithStr src "https://" = false → startsWithStr src "data:image" = false →
      resolve_img_url j b src = j b src) ∧
    ((startsWithStr src "http://" = true ∨ startsWithStr src "https://" = true ∨
      startsWithStr src "data:image" = true) →
      resolve_img_url j b src = src) ∧
    (∀ (f : String → FetchOutcome) (c : ImageChecker) (s : Nat)
       (pre post : List String),
      check_website_images j f (PageFetch.ok s (pre ++ "" :: post)) c =
        check_website_images j f (PageFetch.ok s (pre ++ post)) c) := by
  refine ⟨fun _ h1 h2 h3 => by simp [resolve_img_url, h1, h2, h3],
    fun h => by rcases h with h | h | h <;> simp [resolve_img_url, h],
    fun f c s pre post => ?_⟩
  have key : ∀ (init : List (String × Nat × Nat) × List LogEntry),
      (pre ++ "" :: post).foldl (imgStep j f c.url) init =
      (pre ++ post).foldl (imgStep j f c.url) init := by
    intro init
    rw [List.foldl_append, List.foldl_append, List.foldl_cons, imgStep_empty]
  simp [check_website_images, key]

/-- C7 witness: a relative source is joined to the base URL, an absolute
source is unchanged, and an empty source is skipped. -/
theorem C7_url_resolution_witness :
    resolve_img_url (fun b s => b ++ s) "https://tutor4science.com/" "logo.png" =
      "https://tutor4science.com/logo.png" ∧
    resolve_img_url (fun b s => b ++ s) "https://tutor4science.com/"
      "https://cdn.example.com/banner.jpg" = "https://cdn.example.com/banner.jpg" ∧
    check_website_images (fun b s => b ++ s) (fun _ => FetchOutcome.raiseExc)
        (PageFetch.ok 200 ["a.png", "", "b.png"]) testChecker =
      check_website_images (fun b s => b ++ s) (fun _ => FetchOutcome.raiseExc)
        (PageFetch.ok 200 ["a.png", "b.png"]) testChecker := by
  refine ⟨?_, ?_, ?_⟩
  · have h := (C7_url_resolution (fun b s => b ++ s) "https://tutor4science.com/" "logo.png").1
      (by decide) (by decide) (by decide) (by decide)
    exact h.trans (by decide)
  · exact (C7_url_resolution (fun b s => b ++ s) "https://tutor4science.com/"
      "https://cdn.example.com/banner.jpg").2.1 (Or.inr (Or.inl (by decide)))
  · have h := (C7_url_resolution (fun b s => b ++ s) "https://tutor4science.com/"
      "dummy").2.2 (fun _ => FetchOutcome.raiseExc) testChecker 200 ["a.png"] ["b.png"]
    simpa using h

/-- C8 counterexample: a cycle whose page fetch raises also returns an empty
broken-image list and sends no email, but logs the error line instead of the
all-images-rendering info line, so the info line is not logged on every
empty-list cycle. -/
theorem C8_counterexample_raise_no_info_line :
    (check_website_images (fun b s => b ++ s) (fun _ => FetchOutcome.raiseExc)
        PageFetch.raiseExc testChecker).broken_images = [] ∧
    (LogEntry.info "All main content images are rendering properly") ∉
      (check_website_images (fun b s => b ++ s) (fun _ => FetchOutcome.raiseExc)
        PageFetch.raiseExc testChecker).log := by
  constructor
  · decide
  · decide

/-- C8 (amended): `send_email_notification` returns immediately on an empty
list, and every cycle whose page fetch does not raise has an empty
broken-image list, composes no email, and logs the all-images-rendering info
line; a cycle whose page fetch raises still sends no email but logs the
error line instead. -/
theorem C8_no_email_on_empty_list (j : String → String → String)
    (f : String → FetchOutcome) (s : Nat) (imgs : List String) (c : ImageChecker) :
    send_email_notification c [] = none ∧
    (check_website_images j f (PageFetch.ok s imgs) c).broken_images = [] ∧
    (check_website_images j f (PageFetch.ok s imgs) c).email = none ∧
    LogEntry.info "All main content images are rendering properly" ∈
      (check_website_images j f (PageFetch.ok s imgs) c).log ∧
    (check_website_images j f PageFetch.raiseExc c).email = none := by
  exact ⟨rfl, check_website_images_broken_nil j f (PageFetch.ok s imgs) c,
    check_website_images_email_none j f (PageFetch.ok s imgs) c,
    check_website_images_info_logged j f s imgs c,
    check_website_images_email_none j f PageFetch.raiseExc c⟩

/-- C9: on a non-empty list, `send_email_notification` composes exactly one
message, addressed From the configured sender To the configured recipient,
whose body is the fixed header followed by the join of exactly one line per
record, each line giving the URL of the record and its width-by-height
dimensions. -/
theorem C9_email_one_line_per_record (c : ImageChecker)
    (l : List (String × Nat × Nat)) (hne : l ≠ []) :
    send_email_notification c l =
      some { msgFrom := c.email_sender
             msgTo := c.email_receiver
             subject := "Broken Images Found on " ++ c.url
             body := EMAIL_BODY_HEADER ++ String.join (l.map email_line) } ∧
    (l.map email_line).length = l.length ∧
    (∀ rec ∈ l, email_line rec =
      "- " ++ rec.1 ++ " (size: " ++ toString rec.2.1 ++ "x" ++ toString rec.2.2 ++ ")\n") := by
  have hempty : l.isEmpty = false := by
    cases l with
    | nil => exact absurd rfl hne
    | cons x xs => rfl
  refine ⟨?_, List.length_map l email_line, fun rec _ => rfl⟩
  simp [send_email_notification, hempty, foldl_email_line]

/-- C9 witness: the composed message for a single broken-image record. -/
theorem C9_email_one_line_per_record_witness :
    send_email_notification testChecker [("https://cdn.example.com/banner.jpg", 300, 400)] =
      some { msgFrom := "sender@example.com"
             msgTo := "receiver@example.com"
             subject := "Broken Images Found on https://tutor4science.com/"
             body := EMAIL_BODY_HEADER ++ "- https://cdn.example.com/banner.jpg (size: 300x400)\n" } := by
  have h := (C9_email_one_line_per_record testChecker
    [("https://cdn.example.com/banner.jpg", 300, 400)] (by decide)).1
  exact h.trans (by decide)

/-- C10: the first component of `check_image_url` is always one of `True`,
`None`, `False`, and every internal exception path (raised fetch,
undecodable 200 body, or failed verification of a threshold-sized image)
returns exactly `(False, None, None)` together with the error log line. -/
theorem C10_check_image_url_total (fetch : String → FetchOutcome) (url : String) :
    ((check_image_url fetch url).1.1 = some true ∨
     (check_image_url fetch url).1.1 = none ∨
     (check_image_url fetch url).1.1 = some false) ∧
    (raisesInternally fetch url →
      check_image_url fetch url =
        ((some false, none, none), [LogEntry.error ("Error checking image " ++ url)])) := by
  constructor
  · rcases h : (check_image_url fetch url).1.1 with _ | b
    · exact Or.inr (Or.inl rfl)
    · cases b
      · exact Or.inr (Or.inr rfl)
      · exact Or.inl rfl
  · rintro ⟨hb, hcase⟩
    rcases hcase with hf | hf | ⟨w, hgt, hf, hw, hh⟩
    · simp [check_image_url, hb, hf]
    · simp [check_image_url, hb, hf]
    · simp [check_image_url, hb, hf, hw, hh]

/-- C10 witness: a 200 response whose body cannot be decoded yields exactly
the failure triple and the error log line. -/
theorem C10_check_image_url_total_witness :
    check_image_url (fun _ => FetchOutcome.ok 200 ImageBody.undecodable)
        "https://tutor4science.com/banner.jpg" =
      ((some false, none, none),
       [LogEntry.error "Error checking image https://tutor4science.com/banner.jpg"]) := by
  have h := (C10_check_image_url_total (fun _ => FetchOutcome.ok 200 ImageBody.undecodable)
    "https://tutor4science.com/banner.jpg").2 ⟨by decide, Or.inr (Or.inl rfl)⟩
  exact h.trans (by decide)
